import Mathlib

/-!
Verification of the Trip/Route Coordination Engine and Location Tracking
Controller of the opsflow-erp-mobile repository, as a shallow embedding.

Sources embedded here:
- src/screens/driver/TripExecutionScreen.tsx (next-stop gating, accept-trip
  validation)
- src/features/driver/DriverTripDetailScreen.tsx (reorder submission,
  delivered/pending split, route-version banner, single-flight add-order guard,
  move-stop cache patching)
- src/features/driver/components/EditableStopRow.tsx (locked-row gating)
- src/shared/utils/routeVersionStorage.ts (per-trip route-version marks)
- src/location/locationService.ts (LocationTracker state machine, reporting
  throttle, haversine distance, expo background-tracking wrappers)

JavaScript numbers are modelled as real numbers (integers where the source
only ever holds integers), JS strings as Lean strings, `undefined`/optional
fields as `Option`, and the MMKV key-value store as an association list.
-/

/-! ## JS string helpers

`String.prototype.trim` / `toLowerCase` / `replace(/\s+/g, '')` modelled over
the character list of a Lean string. -/

/-- Whitespace characters relevant to the statuses and ids handled here. -/
def isJsWhitespace (c : Char) : Bool :=
  c == ' ' || c == '\t' || c == '\n' || c == '\r'

/-- JS `String.prototype.trim`: strip whitespace from both ends. -/
def jsTrim (s : String) : String :=
  String.mk (((s.toList.dropWhile isJsWhitespace).reverse.dropWhile isJsWhitespace).reverse)

/-- JS `String.prototype.toLowerCase` (ASCII statuses only appear here). -/
def jsToLower (s : String) : String :=
  String.mk (s.toList.map Char.toLower)

/-- JS `status.replace(/\s+/g, '')`: drop all whitespace. -/
def stripAllWhitespace (s : String) : String :=
  String.mk (s.toList.filter (fun c => !isJsWhitespace c))

/-! ## Data model (src/api/types.ts) -/

/-- Proof-of-delivery record attached to a stop (api/types.ts `Pod`);
only the field consulted by the embedded logic is kept. -/
structure Pod where
  signedAt : Option String
deriving DecidableEq, Repr

/-- A stop of a trip (api/types.ts `Stop`); fields not consulted by the
embedded logic (addresses, planned time) are omitted. -/
structure Stop where
  id : String
  sequence : Int
  type : String
  status : Option String
  transportOrderId : Option String
  pod : Option Pod
deriving DecidableEq, Repr

/-- A trip (api/types.ts `Trip`); fields not consulted by the embedded logic
are omitted. -/
structure Trip where
  id : String
  status : String
  vehicleId : Option String
  stops : List Stop
  routeVersion : Option Int
deriving DecidableEq, Repr

/-- Error taxonomy of the spec (§7). Client code surfaces these as alerts or
toasts; the constructors name the spec's conditions. -/
inductive TripError
  | ValidationError
  | OutOfOrderError
  | InvalidMoveError
  | AlreadyInProgress
  | NotFound
deriving DecidableEq, Repr

/-! ## Sorting stops by sequence

Both screens sort with `[...stops].sort((a, b) => a.sequence - b.sequence)`
(TripExecutionScreen.tsx line 67/322, DriverTripDetailScreen.tsx
`sortStopsBySequence`).  JS `sort` with that comparator produces the stops in
ascending `sequence` order (stable; sequence numbers are unique within a trip),
modelled with an insertion sort on the same key. -/

/-- Comparator key used by both screens. -/
def bySequence (a b : Stop) : Prop := a.sequence ≤ b.sequence

instance : DecidableRel bySequence := fun a b => by
  unfold bySequence; infer_instance

instance : IsTotal Stop bySequence := ⟨fun a b => Int.le_total a.sequence b.sequence⟩

instance : IsTrans Stop bySequence := ⟨fun _ _ _ => Int.le_trans⟩

/-- `[...stops].sort((a, b) => a.sequence - b.sequence)`. -/
def sortStopsBySequence (stops : List Stop) : List Stop :=
  List.insertionSort bySequence stops

/-! ## TripExecutionScreen.tsx -/

/-- The find predicate of `getNextStop`:
`s.status !== 'Completed' && s.status !== 'Failed'`. -/
def isNonTerminalStop (s : Stop) : Bool :=
  s.status != some "Completed" && s.status != some "Failed"

/-- TripExecutionScreen.tsx `getNextStop`: smallest sequence stop that is not
completed (and not failed). -/
def getNextStop (stops : List Stop) : Option Stop :=
  (sortStopsBySequence stops).find? isNonTerminalStop

/-- TripExecutionScreen.tsx render: `stop.status === 'Completed' || stop.status === 'Failed'`. -/
def isCompletedStop (s : Stop) : Bool :=
  s.status == some "Completed" || s.status == some "Failed"

/-- TripExecutionScreen.tsx render:
`stop.status === 'Arrived' || stop.status === 'In Transit' || isCompleted`. -/
def isStartedStop (s : Stop) : Bool :=
  s.status == some "Arrived" || s.status == some "In Transit" || isCompletedStop s

/-- TripExecutionScreen.tsx render: `canStartThisStop = isNext && !isStarted`
where `isNext = nextStop?.id === stop.id`.  The "Start stop" action is offered
exactly when this holds. -/
def canStartThisStop (stops : List Stop) (s : Stop) : Bool :=
  (match getNextStop stops with
   | some nxt => nxt.id == s.id
   | none => false) && !isStartedStop s

/-- Modelled from the spec: the server-side `startStop` transition.  The client
calls `startStop(stopId)` through the transport collaborator (§6); §4.1 states
it is legal only for the stop with the lowest sequence number among
non-terminal stops and that any other stop is rejected with `OutOfOrderError`,
transitioning the stop to `Arrived/InTransit`. -/
def startStopOp (stops : List Stop) (stopId : String) : Except TripError (List Stop) :=
  match getNextStop stops with
  | some nxt =>
      if nxt.id = stopId then
        .ok (stops.map fun s =>
          if s.id = stopId then { s with status := some "In Transit" } else s)
      else .error .OutOfOrderError
  | none => .error .OutOfOrderError

/-- TripExecutionScreen.tsx: `isScheduled = trip.status === 'Scheduled'`. -/
def isScheduled (trip : Trip) : Bool :=
  trip.status == "Scheduled"

/-- The accept-trip card is rendered under `{isScheduled && (...)}`
(TripExecutionScreen.tsx line 363): accepting is offered only from
`Scheduled`. -/
def acceptCardVisible (trip : Trip) : Bool :=
  isScheduled trip

/-- Payload sent by `acceptMutation` (api/driver.ts `AcceptTripPayload`). -/
structure AcceptTripPayload where
  assignedVehicleId : String
  trailerNo : Option String
deriving DecidableEq, Repr

/-- TripExecutionScreen.tsx `handleAcceptTrip`: trims the vehicle id, shows a
validation alert and issues no request when it is empty (modelled as
`ValidationError`), otherwise issues the accept request with the trimmed
payload (`trailerNo` dropped when its trim is empty, mirroring `|| undefined`). -/
def handleAcceptTrip (acceptVehicleId acceptTrailerNo : String) :
    Except TripError AcceptTripPayload :=
  let vehicleId := jsTrim acceptVehicleId
  if vehicleId = "" then .error .ValidationError
  else .ok { assignedVehicleId := vehicleId
             trailerNo := if jsTrim acceptTrailerNo = "" then none
                          else some (jsTrim acceptTrailerNo) }

/-! ## DriverTripDetailScreen.tsx -/

/-- DriverTripDetailScreen.tsx `isDelivered`: delivered = completed (or
delivered) status, case-insensitive, or a signed POD.  Note a `Failed` status
does not count as delivered. -/
def isDelivered (s : Stop) : Bool :=
  let status := jsToLower (s.status.getD "")
  if status = "completed" || status = "delivered" then true
  else if (match s.pod with
           | some pod => pod.signedAt.isSome
           | none => false) then true
  else false

/-- DriverTripDetailScreen.tsx `isEditBlockedByStatus`: block edit when trip is
Closed or Cancelled. -/
def isEditBlockedByStatus (status : String) : Bool :=
  let s := jsToLower status
  s == "closed" || s == "cancelled"

/-- The edit-mode effect (lines 131-137): the draggable pending list is the
sequence-sorted stops without the delivered ones. -/
def pendingOrderInit (stops : List Stop) : List Stop :=
  (sortStopsBySequence stops).filter (fun s => !isDelivered s)

/-- DriverTripDetailScreen.tsx `handleSaveOrder` (lines 251-256): submit the
user-ordered pending stops followed by the delivered stops in their existing
sequence order. -/
def handleSaveOrder (trip : Trip) (pendingOrder : List Stop) : List String :=
  pendingOrder.map (·.id) ++
    ((sortStopsBySequence trip.stops).filter isDelivered).map (·.id)

/-- The spec's terminal predicate (§3 invariants): status `Completed` or
`Failed`.  Stated from the spec's words, to be compared with the code's
`isDelivered` partition. -/
def stopIsTerminalSpec (s : Stop) : Bool :=
  s.status == some "Completed" || s.status == some "Failed"

/-- Ordering claimed by the spec for a `reorderStops` submission: the
non-terminal stops in the user-chosen order, then all terminal stops in their
existing relative sequence order.  Stated from the spec's words, to be
compared with `handleSaveOrder`. -/
def specSubmittedOrder (trip : Trip) (userOrder : List Stop) : List String :=
  userOrder.map (·.id) ++
    ((sortStopsBySequence trip.stops).filter stopIsTerminalSpec).map (·.id)

/-! ## EditableStopRow.tsx -/

/-- The props of EditableStopRow consulted by its gating logic; callback props
are modelled by whether they are provided. -/
structure EditableStopRowProps where
  editMode : Bool
  locked : Bool
  hasOnDrag : Bool
  hasOnMoveToTrip : Bool
  hasOnUnassign : Bool
deriving DecidableEq, Repr

/-- EditableStopRow.tsx line 46:
`showMenu = editMode && !locked && (onMoveToTrip || onUnassign)`. -/
def showMenu (p : EditableStopRowProps) : Bool :=
  p.editMode && !p.locked && (p.hasOnMoveToTrip || p.hasOnUnassign)

/-- EditableStopRow.tsx line 47: `useDragHandle = Boolean(onDrag)`. -/
def useDragHandle (p : EditableStopRowProps) : Bool :=
  p.hasOnDrag

/-- Props used for a delivered stop row (DriverTripDetailScreen.tsx
`editModeListFooter`): locked, no drag, no menu callbacks. -/
def lockedRowProps : EditableStopRowProps :=
  { editMode := true, locked := true, hasOnDrag := false,
    hasOnMoveToTrip := false, hasOnUnassign := false }

/-- Props used for a pending stop row (DriverTripDetailScreen.tsx
`renderDraggableItem`): not locked, drag handle, move and unassign offered. -/
def draggableRowProps : EditableStopRowProps :=
  { editMode := true, locked := false, hasOnDrag := true,
    hasOnMoveToTrip := true, hasOnUnassign := true }

/-- The row props the edit-mode screen gives a stop: delivered stops are
rendered in the locked footer, all other stops as draggable rows. -/
def rowPropsFor (s : Stop) : EditableStopRowProps :=
  if isDelivered s then lockedRowProps else draggableRowProps

/-! ## Move-stop cache patching (DriverTripDetailScreen.tsx `moveStopMutation`) -/

/-- The two query-cache entries patched by `moveStopMutation.onSuccess`. -/
structure QueryCache where
  transportTrip : Option Trip
  transportTrips : Option (List Trip)
deriving DecidableEq, Repr

/-- The optimistic patch applied by `moveStopMutation.onSuccess`: drop the
stop from the source trip's projections and append a placeholder stop to the
target trip's list entry. -/
def applyMoveStopSuccess (tripId stopId targetTripId : String)
    (placeholder : Stop) (c : QueryCache) : QueryCache :=
  { transportTrip :=
      c.transportTrip.map fun prev =>
        { prev with stops := prev.stops.filter (fun s => s.id != stopId) }
    transportTrips :=
      c.transportTrips.map fun prev =>
        prev.map fun t =>
          if t.id = tripId then
            { t with stops := t.stops.filter (fun s => s.id != stopId) }
          else if t.id = targetTripId then
            { t with stops := t.stops ++ [placeholder] }
          else t }

/-- Settlement of the `moveStop` mutation: `onSuccess` applies the optimistic
patch, `onError` only shows a toast and leaves both projections untouched. -/
def moveStopSettled (tripId stopId targetTripId : String) (placeholder : Stop)
    (result : Except TripError Unit) (c : QueryCache) : QueryCache :=
  match result with
  | .ok _ => applyMoveStopSuccess tripId stopId targetTripId placeholder c
  | .error _ => c

/-! ## Single-flight add-order guard (DriverTripDetailScreen.tsx) -/

/-- Outcome of one `handleAddOrder` call: the state after the call
(`onMutate` records the in-flight order id), the accept request issued (if
any), and whether any error was surfaced to the user. -/
structure AddOrderOutcome where
  assigningOrderId : Option String
  issuedRequest : Option String
  surfacedError : Bool
deriving DecidableEq, Repr

/-- DriverTripDetailScreen.tsx `handleAddOrder` (lines 239-245): while any
accept call is in flight (`assigningOrderId` set) a further call returns
without issuing a request and without surfacing anything; otherwise the
accept request is issued and `onMutate` records the order id. -/
def handleAddOrder (assigningOrderId : Option String) (orderId : String) :
    AddOrderOutcome :=
  if assigningOrderId.isSome then
    { assigningOrderId := assigningOrderId, issuedRequest := none, surfacedError := false }
  else
    { assigningOrderId := some orderId, issuedRequest := some orderId, surfacedError := false }

/-- The add action's disabled flag (line 525): `disabled={assigningOrderId != null}`. -/
def addOrderDisabled (assigningOrderId : Option String) : Bool :=
  assigningOrderId.isSome

/-! ## Route-version marks (routeVersionStorage.ts and the banner effect) -/

/-- Storage key: `'opsflow_lastSeenRouteVersion_' + tripId`. -/
def routeVersionKey (tripId : String) : String :=
  "opsflow_lastSeenRouteVersion_" ++ tripId

/-- The MMKV instance holding the per-trip marks, modelled as an association
list (later writes shadow earlier ones).  Values are stored as
`String(version)` and read back through `Number(raw)`; that round trip is the
identity on the integers stored here, so values are modelled as integers. -/
abbrev VersionStorage := List (String × Int)

/-- routeVersionStorage.ts `getLastSeenRouteVersion`. -/
def getLastSeenRouteVersion (st : VersionStorage) (tripId : String) : Option Int :=
  st.lookup (routeVersionKey tripId)

/-- routeVersionStorage.ts `setLastSeenRouteVersion`. -/
def setLastSeenRouteVersion (st : VersionStorage) (tripId : String) (version : Int) :
    VersionStorage :=
  (routeVersionKey tripId, version) :: st

/-- The banner effect of DriverTripDetailScreen.tsx (lines 96-107), run on
every fetch of the trip: first sight stores the mark silently; a strictly
greater server `routeVersion` stores the new mark and raises the
`RouteChangedExternally` banner; otherwise nothing happens.  Returns the new
storage and whether the banner was raised. -/
def routeVersionEffect (st : VersionStorage) (tripId : String) (trip : Trip) :
    VersionStorage × Bool :=
  match trip.routeVersion with
  | none => (st, false)
  | some rv =>
    match getLastSeenRouteVersion st tripId with
    | none => (setLastSeenRouteVersion st tripId rv, false)
    | some lastSeen =>
        if lastSeen < rv then (setLastSeenRouteVersion st tripId rv, true)
        else (st, false)

/-- The screen's edit gate (line 329): `canEditRoute && !editBlocked`.  The
banner flag is in the render state but deliberately never consulted by the
gate, mirroring that the `RouteChangedExternally` notice does not block
edits. -/
def editRouteEnabled (canEditRoute : Bool) (trip : Trip)
    (routeUpdatedBanner : Bool) : Bool :=
  canEditRoute && !isEditBlockedByStatus trip.status

/-! ## locationService.ts - LocationTracker -/

/-- `Platform.OS` as consulted by the tracker. -/
inductive Platform
  | android
  | ios
deriving DecidableEq, Repr

/-- Outcome of `PermissionsAndroid.request` for fine location. -/
inductive PermResult
  | granted
  | denied
  | neverAskAgain
deriving DecidableEq, Repr

/-- Observable side effects of the tracker operations. -/
inductive TrackerEffect
  | requestFineLocationPermission
  | alertPermissionDenied
  | clearWatch (id : Nat)
  | watchPosition (id : Nat)
deriving DecidableEq, Repr

/-- A location sample (locationService.ts `LocationData`). -/
structure LocationData where
  lat : ℝ
  lng : ℝ
  accuracy : ℝ
  heading : Option ℝ
  speed : Option ℝ
  capturedAt : String

/-- locationService.ts `LocationTrackerOptions`; `none` models an absent or
`undefined` field. -/
structure LocationTrackerOptions where
  updateInterval : Option ℝ
  distanceThreshold : Option ℝ

/-- JS `x || d` on an optional number: `undefined`, and the falsy value `0`,
fall back to the default. -/
noncomputable def jsOr (x : Option ℝ) (d : ℝ) : ℝ :=
  match x with
  | some v => if v = 0 then d else v
  | none => d

/-- Options of the singleton tracker: the constructor merges
`{ updateInterval: 5000, distanceThreshold: 20 }` with the (absent) caller
options. -/
def defaultOptions : LocationTrackerOptions :=
  { updateInterval := some 5000, distanceThreshold := some 20 }

/-- Mutable fields of the `LocationTracker` class.  `lastSentTime` starts at
`0` and timestamps are milliseconds since the epoch as in `Date.now()`. -/
structure TrackerState where
  watchId : Option Nat
  isTracking : Bool
  lastSentLocation : Option LocationData
  lastSentTime : ℝ
  permissionRequested : Bool

/-- Field values installed by the `LocationTracker` constructor. -/
def initialTrackerState : TrackerState :=
  { watchId := none, isTracking := false, lastSentLocation := none,
    lastSentTime := 0, permissionRequested := false }

/-- locationService.ts `requestPermissions` (lines 131-170).  On iOS it
returns true immediately.  On Android, if `permissionRequested` is already
set it returns false without issuing a request; otherwise it issues the
request and returns true (setting the flag) exactly on `GRANTED`, alerting on
`DENIED`.  Returns the new state, the boolean result and the effects. -/
def requestPermissions (p : Platform) (res : PermResult) (st : TrackerState) :
    TrackerState × Bool × List TrackerEffect :=
  match p with
  | .ios => (st, true, [])
  | .android =>
    if st.permissionRequested then (st, false, [])
    else
      match res with
      | .granted =>
          ({ st with permissionRequested := true }, true,
           [.requestFineLocationPermission])
      | .denied =>
          (st, false, [.requestFineLocationPermission, .alertPermissionDenied])
      | .neverAskAgain =>
          (st, false, [.requestFineLocationPermission])

/-- locationService.ts `startTracking` (lines 291-335).  Already-tracking is
an immediate success with no effects; otherwise permissions are requested,
any stale watch is cleared and a new position watch is registered.
`newWatchId` stands for the id `Geolocation.watchPosition` hands back. -/
def startTracking (p : Platform) (res : PermResult) (newWatchId : Nat)
    (st : TrackerState) : TrackerState × Bool × List TrackerEffect :=
  if st.isTracking then (st, true, [])
  else
    match requestPermissions p res st with
    | (st1, ok, effs) =>
      if !ok then (st1, false, effs)
      else
        let clearEffs := match st1.watchId with
          | some w => [TrackerEffect.clearWatch w]
          | none => []
        ({ st1 with watchId := some newWatchId, isTracking := true }, true,
         effs ++ clearEffs ++ [.watchPosition newWatchId])

/-- locationService.ts `stopTracking` (lines 340-352).  Not-tracking is an
immediate no-op; otherwise the watch is cleared and tracking stops.  The
throttle reference fields `lastSentLocation` / `lastSentTime` are not
touched. -/
def stopTracking (st : TrackerState) : TrackerState × List TrackerEffect :=
  if !st.isTracking then (st, [])
  else
    let clearEffs := match st.watchId with
      | some w => [TrackerEffect.clearWatch w]
      | none => []
    ({ st with watchId := none, isTracking := false }, clearEffs)

/-! ## locationService.ts - expo background tracking wrappers -/

/-- Observable effects of the expo background-tracking wrappers. -/
inductive BgEffect
  | requestBgPermissions
  | startLocationUpdates
  | stopLocationUpdates
deriving DecidableEq, Repr

/-- locationService.ts `startBackgroundTracking` (lines 42-56).  State is
whether the background task is registered (`hasStartedLocationUpdatesAsync`);
`perm` is the combined outcome of `requestLocationPermissions`.  Returns the
new running flag, success (false models the thrown permission error), and
effects. -/
def startBackgroundTracking (p : Platform) (perm : Bool) (running : Bool) :
    Bool × Bool × List BgEffect :=
  match p with
  | .ios => (running, true, [])
  | .android =>
    if running then (running, true, [])
    else if perm then (true, true, [.requestBgPermissions, .startLocationUpdates])
    else (running, false, [.requestBgPermissions])

/-- locationService.ts `stopBackgroundTracking` (lines 62-75). -/
def stopBackgroundTracking (p : Platform) (running : Bool) :
    Bool × List BgEffect :=
  match p with
  | .ios => (running, [])
  | .android =>
    if !running then (running, [])
    else (false, [.stopLocationUpdates])

/-! ## Reporting throttle (locationService.ts lines 175-276) -/

section
open Classical

/-- JS `Math.atan2(y, x)`. Only the `0 < x` branch is exercised by the
haversine formula, but the function is total. -/
noncomputable def atan2 (y x : ℝ) : ℝ :=
  if 0 < x then Real.arctan (y / x)
  else if x < 0 then
    (if 0 ≤ y then Real.arctan (y / x) + Real.pi
     else Real.arctan (y / x) - Real.pi)
  else
    (if 0 < y then Real.pi / 2 else if y < 0 then -(Real.pi / 2) else 0)

/-- locationService.ts `calculateDistance` (lines 208-221): haversine
distance in meters. -/
noncomputable def calculateDistance (lat1 lon1 lat2 lon2 : ℝ) : ℝ :=
  let R : ℝ := 6371000
  let phi1 := lat1 * Real.pi / 180
  let phi2 := lat2 * Real.pi / 180
  let dphi := (lat2 - lat1) * Real.pi / 180
  let dlam := (lon2 - lon1) * Real.pi / 180
  let a := Real.sin (dphi / 2) * Real.sin (dphi / 2) +
      Real.cos phi1 * Real.cos phi2 * Real.sin (dlam / 2) * Real.sin (dlam / 2)
  let c := 2 * atan2 (Real.sqrt a) (Real.sqrt (1 - a))
  R * c

/-- locationService.ts `shouldSendLocation` (lines 175-203): send the first
sample (`lastSentLocation` unset), else send when the configured interval has
elapsed since `lastSentTime`, else send when the haversine distance from the
last sent coordinates reaches the configured threshold.  `now` is
`Date.now()` at the check. -/
noncomputable def shouldSendLocation (opts : LocationTrackerOptions)
    (st : TrackerState) (newLocation : LocationData) (now : ℝ) : Bool :=
  if st.lastSentLocation.isNone then true
  else if jsOr opts.updateInterval 5000 ≤ now - st.lastSentTime then true
  else
    match st.lastSentLocation with
    | some last =>
        decide (jsOr opts.distanceThreshold 20 ≤
          calculateDistance last.lat last.lng newLocation.lat newLocation.lng)
    | none => false

end

/-- One `handleLocationUpdate` call (lines 262-276) followed by
`sendLocationToAPI` (lines 227-257) when the throttle fires: a sample below
both thresholds is dropped; a breaching sample is sent and both reference
values are reset to it (also when sharing is disabled, which skips only the
network call); an API failure leaves the reference values unchanged.  The
final `Bool` records whether the sample was transmitted to the server. -/
inductive SampleStep (opts : LocationTrackerOptions) (shareEnabled apiOk : Bool) :
    TrackerState → LocationData → ℝ → TrackerState → Bool → Prop
  | skip (st : TrackerState) (loc : LocationData) (now : ℝ) :
      shouldSendLocation opts st loc now = false →
      SampleStep opts shareEnabled apiOk st loc now st false
  | sendShareDisabled (st : TrackerState) (loc : LocationData) (now : ℝ) :
      shouldSendLocation opts st loc now = true →
      shareEnabled = false →
      SampleStep opts shareEnabled apiOk st loc now
        { st with lastSentLocation := some loc, lastSentTime := now } false
  | send (st : TrackerState) (loc : LocationData) (now : ℝ) :
      shouldSendLocation opts st loc now = true →
      shareEnabled = true → apiOk = true →
      SampleStep opts shareEnabled apiOk st loc now
        { st with lastSentLocation := some loc, lastSentTime := now } true
  | sendApiError (st : TrackerState) (loc : LocationData) (now : ℝ) :
      shouldSendLocation opts st loc now = true →
      shareEnabled = true → apiOk = false →
      SampleStep opts shareEnabled apiOk st loc now st false

/-! ## Auxiliary definitions for the theorems below -/

/-- The haversine intermediate `a` of `calculateDistance`, named for reuse in
the distance bounds. -/
noncomputable def haverA (lat1 lon1 lat2 lon2 : ℝ) : ℝ :=
  Real.sin ((lat2 - lat1) * Real.pi / 180 / 2) *
      Real.sin ((lat2 - lat1) * Real.pi / 180 / 2) +
    Real.cos (lat1 * Real.pi / 180) * Real.cos (lat2 * Real.pi / 180) *
      Real.sin ((lon2 - lon1) * Real.pi / 180 / 2) *
      Real.sin ((lon2 - lon1) * Real.pi / 180 / 2)

/-- Repeatedly call `startTracking` on Android with the given permission
outcomes and watch ids, collecting the results and effects. -/
def startTrackingRuns (calls : List (PermResult × Nat)) (st : TrackerState) :
    TrackerState × List Bool × List TrackerEffect :=
  match calls with
  | [] => (st, [], [])
  | (res, w) :: rest =>
    match startTracking .android res w st with
    | (st1, ok, effs) =>
      match startTrackingRuns rest st1 with
      | (st2, oks, effs2) => (st2, ok :: oks, effs ++ effs2)

/-- Example stops for the next-stop gate: two pending pickups/deliveries. -/
def stop1ex : Stop :=
  { id := "s1", sequence := 1, type := "PICKUP", status := none,
    transportOrderId := none, pod := none }

/-- Second example stop, later in sequence. -/
def stop2ex : Stop :=
  { id := "s2", sequence := 2, type := "DELIVERY", status := none,
    transportOrderId := none, pod := none }

/-- A failed stop: terminal for the spec, but not delivered for the code. -/
def stopFailedEx : Stop :=
  { id := "sF", sequence := 1, type := "DELIVERY", status := some "Failed",
    transportOrderId := some "o1", pod := none }

/-- A completed stop: terminal for the spec and delivered for the code. -/
def stopCompletedEx : Stop :=
  { id := "sC", sequence := 2, type := "DELIVERY", status := some "Completed",
    transportOrderId := some "o2", pod := none }

/-- A still-scheduled (pending) stop. -/
def stopScheduledEx : Stop :=
  { id := "sS", sequence := 3, type := "DELIVERY", status := some "Scheduled",
    transportOrderId := some "o3", pod := none }

/-- Example trip holding a failed, a completed and a scheduled stop. -/
def tripMixedEx : Trip :=
  { id := "T1", status := "In Transit", vehicleId := some "VH-1",
    stops := [stopFailedEx, stopCompletedEx, stopScheduledEx],
    routeVersion := some 1 }

/-- Example trip whose server `routeVersion` is 3 (scenario C). -/
def tripRv3ex : Trip :=
  { id := "T1", status := "Scheduled", vehicleId := none, stops := [],
    routeVersion := some 3 }

/-- Scenario D first sample: (1.3000, 103.800). -/
noncomputable def locA : LocationData :=
  { lat := 1.3, lng := 103.8, accuracy := 5, heading := none, speed := none,
    capturedAt := "t0" }

/-- Scenario D second/third sample coordinates: (1.3000, 103.8001), about
11 m east of `locA`. -/
noncomputable def locB : LocationData :=
  { lat := 1.3, lng := 103.8001, accuracy := 5, heading := none, speed := none,
    capturedAt := "t2" }

/-- Throttle state after transmitting `locA` at `t = 0`. -/
noncomputable def stAfterLocA : TrackerState :=
  { watchId := none, isTracking := false, lastSentLocation := some locA,
    lastSentTime := 0, permissionRequested := false }

/-- Throttle state after transmitting `locB` at `t = 8000`. -/
noncomputable def stAfterLocB : TrackerState :=
  { watchId := none, isTracking := false, lastSentLocation := some locB,
    lastSentTime := 8000, permissionRequested := false }

/-- iOS tracker state after the first `startTracking` (watch 1 registered). -/
noncomputable def st8started : TrackerState :=
  { watchId := some 1, isTracking := true, lastSentLocation := none,
    lastSentTime := 0, permissionRequested := false }

/-- iOS tracker state after the first sample `locA` was transmitted at `t = 0`. -/
noncomputable def st8sent : TrackerState :=
  { watchId := some 1, isTracking := true, lastSentLocation := some locA,
    lastSentTime := 0, permissionRequested := false }

/-- iOS tracker state after `stopTracking`: the watch is gone but the throttle
references survive. -/
noncomputable def st8stopped : TrackerState :=
  { watchId := none, isTracking := false, lastSentLocation := some locA,
    lastSentTime := 0, permissionRequested := false }

/-- iOS tracker state after the restart (watch 2 registered): the throttle
references still point at the pre-restart sample. -/
noncomputable def st8restarted : TrackerState :=
  { watchId := some 2, isTracking := true, lastSentLocation := some locA,
    lastSentTime := 0, permissionRequested := false }

/-! ## Helper lemmas -/

/-- In a list sorted by sequence, `find?` returns an element of minimal
sequence among those satisfying the predicate. -/
lemma sorted_find?_minimal : ∀ {l : List Stop} {p : Stop → Bool} {n : Stop},
    List.Sorted bySequence l → l.find? p = some n →
    ∀ s ∈ l, p s = true → n.sequence ≤ s.sequence := by
  intro l
  induction l with
  | nil => intro p n _ hf; cases hf
  | cons a t ih =>
    intro p n hs hf s hmem hp
    rw [List.sorted_cons] at hs
    by_cases hpa : p a = true
    · rw [List.find?_cons_of_pos _ hpa] at hf
      have hn : a = n := by injection hf
      subst hn
      rcases List.mem_cons.mp hmem with rfl | hmt
      · exact le_refl _
      · exact hs.1 s hmt
    · rw [List.find?_cons_of_neg _ (by simpa using hpa)] at hf
      rcases List.mem_cons.mp hmem with rfl | hmt
      · exact absurd hp hpa
      · exact ih hs.2 hf s hmt hp

/-- `getNextStop` returns a non-terminal stop of the trip whose sequence is
minimal among all non-terminal stops. -/
lemma getNextStop_spec {stops : List Stop} {n : Stop}
    (hf : getNextStop stops = some n) :
    n ∈ stops ∧ isNonTerminalStop n = true ∧
      ∀ s ∈ stops, isNonTerminalStop s = true → n.sequence ≤ s.sequence := by
  have hperm : (sortStopsBySequence stops).Perm stops :=
    List.perm_insertionSort bySequence stops
  have hsorted : List.Sorted bySequence (sortStopsBySequence stops) :=
    List.sorted_insertionSort bySequence stops
  unfold getNextStop at hf
  refine ⟨hperm.subset (List.mem_of_find?_eq_some hf), List.find?_some hf, ?_⟩
  intro s hsmem hsp
  exact sorted_find?_minimal hsorted hf s (hperm.mem_iff.mpr hsmem) hsp

/-! ## C1 -/

/-- C1: `startStop` is legal only for the stop with the lowest sequence
number among non-terminal stops (the "next stop"): the client offers the
start action only for that stop (`canStartThisStop`), `getNextStop` indeed
selects the minimal-sequence non-terminal stop, and `startStopOp` on any
other stop always fails with `OutOfOrderError`, leaving every stop's status
unchanged (no transition is produced). -/
theorem C1_startStop_only_next :
    (∀ stops n, getNextStop stops = some n →
        n ∈ stops ∧ isNonTerminalStop n = true ∧
          ∀ s ∈ stops, isNonTerminalStop s = true → n.sequence ≤ s.sequence) ∧
    (∀ stops s, canStartThisStop stops s = true →
        ∃ n, getNextStop stops = some n ∧ n.id = s.id ∧ isStartedStop s = false) ∧
    (∀ stops stopId, (∀ n, getNextStop stops = some n → n.id ≠ stopId) →
        startStopOp stops stopId = .error .OutOfOrderError) := by
  refine ⟨fun stops n hf => getNextStop_spec hf, ?_, ?_⟩
  · intro stops s h
    unfold canStartThisStop at h
    rcases hg : getNextStop stops with _ | n
    · rw [hg] at h
      simp at h
    · rw [hg] at h
      simp only [Bool.and_eq_true, beq_iff_eq, Bool.not_eq_true'] at h
      exact ⟨n, rfl, h.1, h.2⟩
  · intro stops stopId h
    unfold startStopOp
    rcases hg : getNextStop stops with _ | n
    · rfl
    · simp [h n hg]

/-- Witness for C1 at a concrete trip: stop `s1` (sequence 1) is the next
stop, so starting stop `s2` is rejected with `OutOfOrderError`. -/
theorem C1_witness :
    startStopOp [stop2ex, stop1ex] "s2" = .error .OutOfOrderError :=
  C1_startStop_only_next.2.2 [stop2ex, stop1ex] "s2" (fun n hn => by
    have h1 : getNextStop [stop2ex, stop1ex] = some stop1ex := by decide
    rw [h1] at hn
    have h2 : stop1ex = n := by injection hn
    subst h2
    decide)

/-! ## C9 -/

/-- C9: accepting a trip is offered only while the trip is `Scheduled`, and
`handleAcceptTrip` requires a non-empty (after trimming) vehicle id: an empty
one fails with `ValidationError` and no accept request is issued; a request
is issued only with the non-empty trimmed vehicle id. -/
theorem C9_accept_requires_vehicle :
    (∀ trip, acceptCardVisible trip = true ↔ trip.status = "Scheduled") ∧
    (∀ v t, jsTrim v = "" →
        handleAcceptTrip v t = .error .ValidationError) ∧
    (∀ v t p, handleAcceptTrip v t = .ok p →
        jsTrim v ≠ "" ∧ p.assignedVehicleId = jsTrim v) := by
  refine ⟨?_, ?_, ?_⟩
  · intro trip
    simp [acceptCardVisible, isScheduled]
  · intro v t h
    simp [handleAcceptTrip, h]
  · intro v t p h
    unfold handleAcceptTrip at h
    by_cases hv : jsTrim v = ""
    · rw [if_pos hv] at h
      cases h
    · rw [if_neg hv] at h
      injection h with h1
      exact ⟨hv, by rw [← h1]⟩

/-- Witness for C9: a whitespace-only vehicle id is rejected with
`ValidationError`. -/
theorem C9_witness :
    handleAcceptTrip "   " "TR-01" = .error .ValidationError :=
  C9_accept_requires_vehicle.2.1 "   " "TR-01" (by decide)

/-! ## C6 -/

/-- C6: while an accept-order call is in flight for an order, a second
`handleAddOrder` call for the same order is rejected locally: it issues no
network request, surfaces no error (the add action is disabled), and changes
nothing; two rapid calls from idle therefore issue exactly one request. -/
theorem C6_single_flight_guard :
    (∀ cur oid, cur = some oid →
        handleAddOrder cur oid =
          { assigningOrderId := cur, issuedRequest := none, surfacedError := false } ∧
        addOrderDisabled cur = true) ∧
    (∀ oid,
        (handleAddOrder none oid).issuedRequest = some oid ∧
        handleAddOrder (handleAddOrder none oid).assigningOrderId oid =
          { assigningOrderId := some oid, issuedRequest := none,
            surfacedError := false }) := by
  constructor
  · intro cur oid h
    subst h
    exact ⟨rfl, rfl⟩
  · intro oid
    exact ⟨rfl, rfl⟩

/-- Witness for C6 (scenario B): two rapid `acceptOrder` calls for order
`o1`; the second issues no request. -/
theorem C6_witness :
    handleAddOrder (some "o1") "o1" =
      { assigningOrderId := some "o1", issuedRequest := none,
        surfacedError := false } ∧
    addOrderDisabled (some "o1") = true :=
  C6_single_flight_guard.1 (some "o1") "o1" rfl

/-! ## C2 -/

/-- C2 fails as stated: a `Failed` stop is terminal for the spec, but the
code's `isDelivered` partition treats it as pending, so `handleSaveOrder`
submits it inside the user-ordered pending section, before a pending
(`Scheduled`) stop — not appended after all pending stops.  Concretely, for
the trip `[sF Failed seq 1, sC Completed seq 2, sS Scheduled seq 3]` the
submission is `[sF, sS, sC]`, while every ordering of the claimed shape
(non-terminal stops first, then terminal stops in existing relative order)
is `[sS, sF, sC]`. -/
theorem C2_counterexample :
    pendingOrderInit tripMixedEx.stops = [stopFailedEx, stopScheduledEx] ∧
    handleSaveOrder tripMixedEx (pendingOrderInit tripMixedEx.stops) =
      ["sF", "sS", "sC"] ∧
    stopIsTerminalSpec stopFailedEx = true ∧
    isNonTerminalStop stopScheduledEx = true ∧
    (sortStopsBySequence tripMixedEx.stops).filter isNonTerminalStop =
      [stopScheduledEx] ∧
    specSubmittedOrder tripMixedEx [stopScheduledEx] = ["sS", "sF", "sC"] ∧
    specSubmittedOrder tripMixedEx [stopScheduledEx] ≠
      handleSaveOrder tripMixedEx (pendingOrderInit tripMixedEx.stops) := by
  decide

/-- C2 (amended): the submitted ordering is exactly the non-delivered stops
(the code's pending partition: status not `Completed`/`Delivered` and no
signed POD — a `Failed` stop counts as pending) in the user-chosen order,
followed by all delivered stops in their existing relative sequence order;
the submission is a permutation of all stop ids, and every delivered stop's
position is after every pending stop's. -/
theorem C2_reorder_submission (trip : Trip) (userOrder : List Stop)
    (h : userOrder.Perm (pendingOrderInit trip.stops)) :
    handleSaveOrder trip userOrder =
      userOrder.map (·.id) ++
        ((sortStopsBySequence trip.stops).filter isDelivered).map (·.id) ∧
    (handleSaveOrder trip userOrder).Perm (trip.stops.map (·.id)) ∧
    (handleSaveOrder trip userOrder).take userOrder.length =
      userOrder.map (·.id) ∧
    (handleSaveOrder trip userOrder).drop userOrder.length =
      ((sortStopsBySequence trip.stops).filter isDelivered).map (·.id) := by
  have hsortp : (sortStopsBySequence trip.stops).Perm trip.stops :=
    List.perm_insertionSort bySequence trip.stops
  have hsplit :
      ((sortStopsBySequence trip.stops).filter isDelivered ++
        (sortStopsBySequence trip.stops).filter (fun s => !isDelivered s)).Perm
        (sortStopsBySequence trip.stops) :=
    List.filter_append_perm isDelivered (sortStopsBySequence trip.stops)
  refine ⟨rfl, ?_, ?_, ?_⟩
  · have hperm1 :
        (handleSaveOrder trip userOrder).Perm
          (((sortStopsBySequence trip.stops).filter (fun s => !isDelivered s) ++
            (sortStopsBySequence trip.stops).filter isDelivered).map (·.id)) := by
      rw [List.map_append]
      exact (h.map (·.id)).append_right _
    refine hperm1.trans ?_
    refine List.Perm.map _ ?_
    exact (List.perm_append_comm).trans (hsplit.trans hsortp)
  · have := List.take_left (userOrder.map (·.id))
      (((sortStopsBySequence trip.stops).filter isDelivered).map (·.id))
    rwa [List.length_map] at this
  · have := List.drop_left (userOrder.map (·.id))
      (((sortStopsBySequence trip.stops).filter isDelivered).map (·.id))
    rwa [List.length_map] at this

/-- Witness for the amended C2 at the concrete mixed trip, with the user
order swapping the two pending stops. -/
theorem C2_witness :
    handleSaveOrder tripMixedEx [stopScheduledEx, stopFailedEx] =
      ["sS", "sF", "sC"] ∧
    (handleSaveOrder tripMixedEx [stopScheduledEx, stopFailedEx]).Perm
      (tripMixedEx.stops.map (·.id)) := by
  have h := C2_reorder_submission tripMixedEx [stopScheduledEx, stopFailedEx]
    (by decide)
  exact ⟨by decide, h.2.1⟩

/-! ## C3 -/

/-- C3 fails as stated: a `Failed` stop is terminal for the spec, but it is
not delivered for the code, so the edit screen renders it as a draggable row
with the Move / Unassign menu, includes it in the reorderable pending list,
and its submitted position follows the user's drag — it can be reordered and
offered for moving/unassigning.  Concretely stop `sF` (status `Failed`). -/
theorem C3_counterexample :
    stopIsTerminalSpec stopFailedEx = true ∧
    isDelivered stopFailedEx = false ∧
    rowPropsFor stopFailedEx = draggableRowProps ∧
    showMenu (rowPropsFor stopFailedEx) = true ∧
    useDragHandle (rowPropsFor stopFailedEx) = true ∧
    stopFailedEx ∈ pendingOrderInit tripMixedEx.stops ∧
    [stopFailedEx, stopScheduledEx].Perm (pendingOrderInit tripMixedEx.stops) ∧
    [stopScheduledEx, stopFailedEx].Perm (pendingOrderInit tripMixedEx.stops) ∧
    handleSaveOrder tripMixedEx [stopFailedEx, stopScheduledEx] =
      ["sF", "sS", "sC"] ∧
    handleSaveOrder tripMixedEx [stopScheduledEx, stopFailedEx] =
      ["sS", "sF", "sC"] := by
  decide

/-- C3 (amended): a delivered stop (status `Completed`/`Delivered` or signed
POD) is immutable with respect to ordering: it is rendered as a locked row
with no drag handle and no Move/Unassign menu, it is excluded from the
reorderable pending list, and delivered stops are always appended after the
pending section in their existing relative sequence order.  A `Failed` stop
without a signed POD remains editable.  A failed `moveStop` call leaves the
source and target trip projections unchanged (the optimistic patch is applied
only on success). -/
theorem C3_delivered_stop_locked :
    (∀ s, isDelivered s = true →
        rowPropsFor s = lockedRowProps ∧
        showMenu (rowPropsFor s) = false ∧
        useDragHandle (rowPropsFor s) = false) ∧
    (∀ stops s, isDelivered s = true → s ∉ pendingOrderInit stops) ∧
    (∀ trip userOrder,
        (handleSaveOrder trip userOrder).drop userOrder.length =
          ((sortStopsBySequence trip.stops).filter isDelivered).map (·.id)) ∧
    (∀ tripId stopId targetTripId placeholder e c,
        moveStopSettled tripId stopId targetTripId placeholder (.error e) c = c) := by
  refine ⟨?_, ?_, ?_, ?_⟩
  · intro s h
    unfold rowPropsFor
    rw [if_pos h]
    exact ⟨rfl, rfl, rfl⟩
  · intro stops s h hmem
    have := List.of_mem_filter hmem
    rw [h] at this
    cases this
  · intro trip userOrder
    have := List.drop_left (userOrder.map (·.id))
      (((sortStopsBySequence trip.stops).filter isDelivered).map (·.id))
    rwa [List.length_map] at this
  · intro tripId stopId targetTripId placeholder e c
    rfl

/-- Witness for the amended C3 at the concrete completed stop `sC`. -/
theorem C3_witness :
    rowPropsFor stopCompletedEx = lockedRowProps ∧
    stopCompletedEx ∉ pendingOrderInit tripMixedEx.stops := by
  have h := C3_delivered_stop_locked
  exact ⟨(h.1 stopCompletedEx (by decide)).1,
    h.2.1 tripMixedEx.stops stopCompletedEx (by decide)⟩

/-! ## C5 -/

/-- C5: on every fetch, a server `routeVersion` strictly greater than the
stored mark raises the route-changed banner and stores the new mark; an equal
version raises nothing and changes nothing; and the banner never enters the
edit gate, so it blocks no local edits.  Scenario C: stored mark 2, fetch
with version 3 raises the banner and stores 3; a second fetch with version 3
raises nothing. -/
theorem C5_route_version_detection :
    (∀ st tripId trip rv lastSeen, trip.routeVersion = some rv →
        getLastSeenRouteVersion st tripId = some lastSeen →
        ((lastSeen < rv →
            routeVersionEffect st tripId trip =
              (setLastSeenRouteVersion st tripId rv, true) ∧
            getLastSeenRouteVersion (routeVersionEffect st tripId trip).1 tripId =
              some rv) ∧
         (rv = lastSeen → routeVersionEffect st tripId trip = (st, false)))) ∧
    ((routeVersionEffect (setLastSeenRouteVersion [] "T1" 2) "T1" tripRv3ex).2 = true ∧
     getLastSeenRouteVersion
       (routeVersionEffect (setLastSeenRouteVersion [] "T1" 2) "T1" tripRv3ex).1 "T1" =
       some 3 ∧
     routeVersionEffect
       (routeVersionEffect (setLastSeenRouteVersion [] "T1" 2) "T1" tripRv3ex).1
       "T1" tripRv3ex =
       ((routeVersionEffect (setLastSeenRouteVersion [] "T1" 2) "T1" tripRv3ex).1,
        false)) ∧
    (∀ canEdit trip b b',
        editRouteEnabled canEdit trip b = editRouteEnabled canEdit trip b') := by
  refine ⟨?_, ⟨by decide, by decide, by decide⟩, fun _ _ _ _ => rfl⟩
  intro st tripId trip rv lastSeen hrv hls
  constructor
  · intro hlt
    have h1 : routeVersionEffect st tripId trip =
        (setLastSeenRouteVersion st tripId rv, true) := by
      simp [routeVersionEffect, hrv, hls, hlt]
    refine ⟨h1, ?_⟩
    rw [h1]
    simp [getLastSeenRouteVersion, setLastSeenRouteVersion]
  · intro heq
    subst heq
    simp [routeVersionEffect, hrv, hls]

/-- Witness for C5 at concrete storage: mark 2, fetched version 3. -/
theorem C5_witness :
    routeVersionEffect [(routeVersionKey "T1", 2)] "T1" tripRv3ex =
      (setLastSeenRouteVersion [(routeVersionKey "T1", 2)] "T1" 3, true) :=
  ((C5_route_version_detection.1 [(routeVersionKey "T1", 2)] "T1" tripRv3ex 3 2
    rfl (by decide)).1 (by decide)).1

/-! ## Tracker helper lemmas -/

/-- Starting an already-tracking tracker returns success and does nothing. -/
lemma startTracking_already {st : TrackerState} (p : Platform) (res : PermResult)
    (w : Nat) (h : st.isTracking = true) :
    startTracking p res w st = (st, true, []) := by
  unfold startTracking
  rw [if_pos h]

/-- A successful `startTracking` leaves the tracker tracking. -/
lemma startTracking_ok_isTracking (p : Platform) (res : PermResult) (w : Nat)
    (st : TrackerState) (h : (startTracking p res w st).2.1 = true) :
    (startTracking p res w st).1.isTracking = true := by
  unfold startTracking at h ⊢
  by_cases hst : st.isTracking = true
  · rw [if_pos hst]
    exact hst
  · rw [if_neg hst] at h ⊢
    rcases hrp : requestPermissions p res st with ⟨st1, ok, effs⟩
    cases ok
    · rw [hrp] at h
      simp at h
    · simp

/-- On Android with the permission flag already latched, `requestPermissions`
refuses without issuing a request. -/
lemma requestPermissions_latched {st : TrackerState} (res : PermResult)
    (h : st.permissionRequested = true) :
    requestPermissions .android res st = (st, false, []) := by
  unfold requestPermissions
  rw [if_pos h]

/-- On Android with the permission flag latched and tracking stopped,
`startTracking` fails and changes nothing. -/
lemma startTracking_latched {st : TrackerState} (res : PermResult) (w : Nat)
    (hperm : st.permissionRequested = true) (htrack : st.isTracking = false) :
    startTracking .android res w st = (st, false, []) := by
  unfold startTracking
  rw [if_neg (by simp [htrack]), requestPermissions_latched res hperm]
  rfl

/-! ## C7 -/

/-- C7: start and stop are idempotent on both trackers: starting while
already tracking (or while the background task is already registered) is a
no-op returning success with no observable effects, so two successive
successful starts have the side effects of one; stopping while already
stopped is a no-op returning success. -/
theorem C7_idempotent_start_stop :
    (∀ p res w st, st.isTracking = true → startTracking p res w st = (st, true, [])) ∧
    (∀ st, st.isTracking = false → stopTracking st = (st, [])) ∧
    (∀ p res w p2 res2 w2 st, (startTracking p res w st).2.1 = true →
        startTracking p2 res2 w2 (startTracking p res w st).1 =
          ((startTracking p res w st).1, true, [])) ∧
    (∀ p perm running, running = true →
        startBackgroundTracking p perm running = (running, true, [])) ∧
    (∀ p running, running = false →
        stopBackgroundTracking p running = (running, [])) := by
  refine ⟨fun p res w st h => startTracking_already p res w h, ?_, ?_, ?_, ?_⟩
  · intro st h
    unfold stopTracking
    rw [if_pos (by simp [h])]
  · intro p res w p2 res2 w2 st h
    exact startTracking_already p2 res2 w2 (startTracking_ok_isTracking p res w st h)
  · intro p perm running h
    subst h
    cases p <;> rfl
  · intro p running h
    subst h
    cases p <;> rfl

/-- Witness for C7: a second start on iOS after a successful first start is a
no-op returning success. -/
theorem C7_witness :
    startTracking .ios .granted 2 (startTracking .ios .granted 1 initialTrackerState).1 =
      ((startTracking .ios .granted 1 initialTrackerState).1, true, []) :=
  C7_idempotent_start_stop.2.2.1 .ios .granted 1 .ios .granted 2
    initialTrackerState rfl

/-! ## C10 -/

/-- C10: on Android the permission flag is latched exactly by a granted
request, and `requestPermissions` refuses whenever the flag is set.  After a
granted start followed by a stop, the tracker keeps the latched flag while
stopped, so every subsequent `startTracking` in the session returns false,
registers no watch and changes nothing; a previously denied tracker (flag
still unset) issues the permission request again on the next start. -/
theorem C10_android_permission_latch :
    (∀ res st, st.permissionRequested = true →
        requestPermissions .android res st = (st, false, [])) ∧
    (∀ res st, (requestPermissions .android res st).1.permissionRequested = true ↔
        (st.permissionRequested = true ∨ res = .granted)) ∧
    (startTracking .android .granted 1 initialTrackerState =
      ({ watchId := some 1, isTracking := true, lastSentLocation := none,
         lastSentTime := 0, permissionRequested := true }, true,
       [.requestFineLocationPermission, .watchPosition 1]) ∧
     stopTracking
       { watchId := some 1, isTracking := true, lastSentLocation := none,
         lastSentTime := 0, permissionRequested := true } =
       ({ watchId := none, isTracking := false, lastSentLocation := none,
          lastSentTime := 0, permissionRequested := true }, [.clearWatch 1])) ∧
    (∀ calls st, st.permissionRequested = true → st.isTracking = false →
        startTrackingRuns calls st = (st, calls.map (fun _ => false), [])) ∧
    (∀ st, st.permissionRequested = false →
        requestPermissions .android .denied st =
          (st, false, [.requestFineLocationPermission, .alertPermissionDenied])) := by
  refine ⟨fun res st h => requestPermissions_latched res h, ?_, ⟨rfl, rfl⟩, ?_, ?_⟩
  · intro res st
    unfold requestPermissions
    by_cases h : st.permissionRequested = true
    · rw [if_pos h]
      simp [h]
    · rw [if_neg h]
      cases res <;> simp_all
  · intro calls
    induction calls with
    | nil => intro st _ _; rfl
    | cons c rest ih =>
      intro st hperm htrack
      rcases c with ⟨res, w⟩
      simp [startTrackingRuns, startTracking_latched res w hperm htrack,
        ih st hperm htrack]
  · intro st h
    unfold requestPermissions
    rw [if_neg (by simp [h])]

/-- Witness for C10: after grant, start, stop, two further start attempts
both fail and register no watch. -/
theorem C10_witness :
    startTrackingRuns [(.granted, 2), (.granted, 3)]
      { watchId := none, isTracking := false, lastSentLocation := none,
        lastSentTime := 0, permissionRequested := true } =
      ({ watchId := none, isTracking := false, lastSentLocation := none,
         lastSentTime := 0, permissionRequested := true }, [false, false], []) :=
  C10_android_permission_latch.2.2.2.1 [(.granted, 2), (.granted, 3)] _ rfl rfl

/-! ## Throttle helper lemmas -/

/-- The singleton tracker's effective interval is the 5000 ms default. -/
lemma jsOr_default_interval : jsOr defaultOptions.updateInterval 5000 = 5000 := by
  unfold jsOr defaultOptions
  simp

/-- The singleton tracker's effective distance threshold is the 20 m default. -/
lemma jsOr_default_threshold : jsOr defaultOptions.distanceThreshold 20 = 20 := by
  unfold jsOr defaultOptions
  simp

/-- Characterization of `shouldSendLocation`: a sample is sent iff it is the
first one, or the interval has elapsed, or the distance threshold is
reached. -/
lemma shouldSendLocation_iff (opts : LocationTrackerOptions) (st : TrackerState)
    (loc : LocationData) (now : ℝ) :
    shouldSendLocation opts st loc now = true ↔
      (st.lastSentLocation = none ∨
       jsOr opts.updateInterval 5000 ≤ now - st.lastSentTime ∨
       ∃ last, st.lastSentLocation = some last ∧
         jsOr opts.distanceThreshold 20 ≤
           calculateDistance last.lat last.lng loc.lat loc.lng) := by
  unfold shouldSendLocation
  rcases hl : st.lastSentLocation with _ | last
  · simp
  · by_cases ht : jsOr opts.updateInterval 5000 ≤ now - st.lastSentTime
    · simp [ht]
    · rw [if_neg (by simp), if_neg ht]
      simp [ht]

/-- Inversion for a sample step with sharing enabled and a healthy API: the
sample is transmitted iff the throttle fires; an untransmitted sample leaves
the state unchanged, a transmitted one resets both reference values. -/
lemma sampleStep_inversion {opts : LocationTrackerOptions}
    {st : TrackerState} {loc : LocationData} {now : ℝ} {st' : TrackerState}
    {sent : Bool} (h : SampleStep opts true true st loc now st' sent) :
    (sent = true ↔ shouldSendLocation opts st loc now = true) ∧
    (sent = false → st' = st) ∧
    (sent = true →
      st' = { st with lastSentLocation := some loc, lastSentTime := now }) := by
  cases h with
  | skip hss => simp [hss]
  | sendShareDisabled _ hsh => cases hsh
  | send hss _ _ => simp [hss]
  | sendApiError _ _ hapi => cases hapi

/-! ## Haversine distance bounds -/

/-- `calculateDistance` in terms of the named haversine intermediate. -/
lemma calculateDistance_eq (lat1 lon1 lat2 lon2 : ℝ) :
    calculateDistance lat1 lon1 lat2 lon2 =
      6371000 * (2 * atan2 (Real.sqrt (haverA lat1 lon1 lat2 lon2))
        (Real.sqrt (1 - haverA lat1 lon1 lat2 lon2))) := rfl

/-- The arctangent is below its argument on the nonnegative axis. -/
lemma arctan_le_self {x : ℝ} (hx : 0 ≤ x) : Real.arctan x ≤ x := by
  rcases eq_or_lt_of_le hx with h | h
  · rw [← h, Real.arctan_zero]
  · refine le_of_lt ?_
    have h1 : 0 < Real.arctan x := by
      rw [← Real.arctan_zero]
      exact Real.arctan_strictMono h
    calc Real.arctan x < Real.tan (Real.arctan x) :=
          Real.lt_tan h1 (Real.arctan_lt_pi_div_two x)
      _ = x := Real.tan_arctan x

/-- The haversine distance from a point to itself is zero. -/
lemma calculateDistance_same (lat lng : ℝ) :
    calculateDistance lat lng lat lng = 0 := by
  rw [calculateDistance_eq]
  have ha : haverA lat lng lat lng = 0 := by
    unfold haverA
    simp
  rw [ha]
  simp [atan2]

/-- The haversine distance between the two scenario-D samples — 0.0001
degrees of longitude apart near latitude 1.3 — is below the 20 m threshold
(the true value is about 11 m; the bound here uses
`arctan x ≤ x` and `sin x ≤ x`). -/
lemma scenarioD_distance_lt :
    calculateDistance 1.3 103.8 1.3 103.8001 < 20 := by
  have hpi : Real.pi < 3.15 := Real.pi_lt_d2
  have hpi0 : (0 : ℝ) < Real.pi := Real.pi_pos
  set θ : ℝ := 0.0001 * Real.pi / 180 / 2 with hθdef
  have hθ0 : 0 ≤ θ := by rw [hθdef]; positivity
  have hθle : θ ≤ 0.00000088 := by rw [hθdef]; nlinarith
  set φ : ℝ := 1.3 * Real.pi / 180 with hφdef
  have hA : haverA 1.3 103.8 1.3 103.8001 =
      Real.cos φ * Real.cos φ * Real.sin θ * Real.sin θ := by
    unfold haverA
    rw [hθdef, hφdef]
    norm_num
  set A : ℝ := haverA 1.3 103.8 1.3 103.8001 with hAdef
  have hsin0 : 0 ≤ Real.sin θ := by
    apply Real.sin_nonneg_of_nonneg_of_le_pi hθ0
    calc θ ≤ 0.00000088 := hθle
      _ ≤ Real.pi := by nlinarith [Real.pi_gt_three]
  have hsinle : Real.sin θ ≤ θ := Real.sin_le hθ0
  have hA0 : 0 ≤ A := by
    rw [hA]
    nlinarith [sq_nonneg (Real.cos φ * Real.sin θ)]
  have hAle : A ≤ θ ^ 2 := by
    rw [hA]
    have hc2 : Real.cos φ * Real.cos φ ≤ 1 := by
      nlinarith [Real.neg_one_le_cos φ, Real.cos_le_one φ]
    have hs2 : Real.sin θ * Real.sin θ ≤ θ ^ 2 := by nlinarith
    calc Real.cos φ * Real.cos φ * Real.sin θ * Real.sin θ
        = (Real.cos φ * Real.cos φ) * (Real.sin θ * Real.sin θ) := by ring
      _ ≤ 1 * θ ^ 2 := mul_le_mul hc2 hs2 (mul_self_nonneg _) one_pos.le
      _ = θ ^ 2 := by ring
  have hsqrtA : Real.sqrt A ≤ θ := by
    have h1 := Real.sqrt_le_sqrt hAle
    rwa [Real.sqrt_sq hθ0] at h1
  have hAsmall : A ≤ 19 / 100 := by nlinarith
  have h1A : 0 ≤ 1 - A := by linarith
  have hsqrtB : 9 / 10 ≤ Real.sqrt (1 - A) := by
    rw [Real.le_sqrt (by norm_num) h1A]
    nlinarith
  have hB0 : 0 < Real.sqrt (1 - A) := lt_of_lt_of_le (by norm_num) hsqrtB
  have hatan2 : atan2 (Real.sqrt A) (Real.sqrt (1 - A)) =
      Real.arctan (Real.sqrt A / Real.sqrt (1 - A)) := by
    rw [atan2, if_pos hB0]
  have hu0 : 0 ≤ Real.sqrt A / Real.sqrt (1 - A) :=
    div_nonneg (Real.sqrt_nonneg A) (Real.sqrt_nonneg _)
  have hule : Real.sqrt A / Real.sqrt (1 - A) ≤ θ / (9 / 10) :=
    div_le_div₀ hθ0 hsqrtA (by norm_num) hsqrtB
  have harc : Real.arctan (Real.sqrt A / Real.sqrt (1 - A)) ≤ θ / (9 / 10) :=
    le_trans (arctan_le_self hu0) hule
  rw [calculateDistance_eq, ← hAdef, hatan2]
  calc (6371000 : ℝ) * (2 * Real.arctan (Real.sqrt A / Real.sqrt (1 - A)))
      ≤ 6371000 * (2 * (θ / (9 / 10))) := by nlinarith
    _ < 20 := by rw [hθdef]; nlinarith

/-! ## Scenario evaluation lemmas -/

/-- With no previously transmitted sample the throttle always fires. -/
lemma shouldSend_first {opts : LocationTrackerOptions} {st : TrackerState}
    (h : st.lastSentLocation = none) (loc : LocationData) (now : ℝ) :
    shouldSendLocation opts st loc now = true := by
  unfold shouldSendLocation
  rw [h]
  rfl

/-- `requestPermissions` never touches the throttle reference fields. -/
lemma requestPermissions_preserves (p : Platform) (res : PermResult)
    (st : TrackerState) :
    (requestPermissions p res st).1.lastSentLocation = st.lastSentLocation ∧
    (requestPermissions p res st).1.lastSentTime = st.lastSentTime := by
  unfold requestPermissions
  cases p
  · by_cases h : st.permissionRequested = true
    · simp [h]
    · cases res <;> simp [h]
  · simp

/-- Scenario D, second sample (11 m and 2 s after the first): below both
thresholds, not sent. -/
lemma scenarioD_second_not_sent :
    shouldSendLocation defaultOptions stAfterLocA locB 2000 = false := by
  have h := shouldSendLocation_iff defaultOptions stAfterLocA locB 2000
  rw [jsOr_default_interval, jsOr_default_threshold] at h
  have hfalse : ¬ (stAfterLocA.lastSentLocation = none ∨
      (5000 : ℝ) ≤ 2000 - stAfterLocA.lastSentTime ∨
      ∃ last, stAfterLocA.lastSentLocation = some last ∧
        (20 : ℝ) ≤ calculateDistance last.lat last.lng locB.lat locB.lng) := by
    push_neg
    refine ⟨by simp [stAfterLocA], ?_, ?_⟩
    · show 2000 - stAfterLocA.lastSentTime < (5000 : ℝ)
      have : stAfterLocA.lastSentTime = 0 := rfl
      rw [this]
      norm_num
    · intro last hlast
      have hl : last = locA := by
        have : stAfterLocA.lastSentLocation = some locA := rfl
        rw [this] at hlast
        injection hlast with h1
        exact h1.symm
      subst hl
      show calculateDistance locA.lat locA.lng locB.lat locB.lng < (20 : ℝ)
      have hco : calculateDistance locA.lat locA.lng locB.lat locB.lng =
          calculateDistance 1.3 103.8 1.3 103.8001 := rfl
      rw [hco]
      exact scenarioD_distance_lt
  cases hss : shouldSendLocation defaultOptions stAfterLocA locB 2000
  · rfl
  · exact absurd (h.mp hss) hfalse

/-- Scenario D, third sample (8 s after the last transmitted one): the time
threshold fires. -/
lemma scenarioD_third_sent :
    shouldSendLocation defaultOptions stAfterLocA locB 8000 = true := by
  rw [shouldSendLocation_iff, jsOr_default_interval]
  refine Or.inr (Or.inl ?_)
  have : stAfterLocA.lastSentTime = 0 := rfl
  rw [this]
  norm_num

/-- After the iOS restart the first new sample at the pre-restart coordinates
and 2 s later is below both thresholds, so the throttle does not fire. -/
lemma restart_first_sample_not_sent :
    shouldSendLocation defaultOptions st8restarted locA 2000 = false := by
  have h := shouldSendLocation_iff defaultOptions st8restarted locA 2000
  rw [jsOr_default_interval, jsOr_default_threshold] at h
  have hfalse : ¬ (st8restarted.lastSentLocation = none ∨
      (5000 : ℝ) ≤ 2000 - st8restarted.lastSentTime ∨
      ∃ last, st8restarted.lastSentLocation = some last ∧
        (20 : ℝ) ≤ calculateDistance last.lat last.lng locA.lat locA.lng) := by
    push_neg
    refine ⟨by simp [st8restarted], ?_, ?_⟩
    · show 2000 - st8restarted.lastSentTime < (5000 : ℝ)
      have : st8restarted.lastSentTime = 0 := rfl
      rw [this]
      norm_num
    · intro last hlast
      have hl : last = locA := by
        have : st8restarted.lastSentLocation = some locA := rfl
        rw [this] at hlast
        injection hlast with h1
        exact h1.symm
      subst hl
      show calculateDistance locA.lat locA.lng locA.lat locA.lng < (20 : ℝ)
      rw [calculateDistance_same]
      norm_num
  cases hss : shouldSendLocation defaultOptions st8restarted locA 2000
  · rfl
  · exact absurd (h.mp hss) hfalse

/-! ## C4 -/

/-- C4: with the default options (interval 5000 ms, threshold 20 m), sharing
enabled and a healthy API, a candidate sample is transmitted iff it is the
first sample, or at least the interval has elapsed since the last transmitted
sample, or the haversine distance from it reaches the threshold; a
transmitted sample resets both reference values to itself and a dropped one
changes nothing.  Scenario D: the first sample at (1.3, 103.8), t = 0, is
transmitted; the second at (1.3, 103.8001), t = 2 s (≈ 11 m away), is not;
the third at the same coordinates, 6 s later (t = 8 s), is transmitted. -/
theorem C4_reporting_throttle :
    (∀ st loc now, shouldSendLocation defaultOptions st loc now = true ↔
        (st.lastSentLocation = none ∨
         (5000 : ℝ) ≤ now - st.lastSentTime ∨
         ∃ last, st.lastSentLocation = some last ∧
           (20 : ℝ) ≤ calculateDistance last.lat last.lng loc.lat loc.lng)) ∧
    (∀ st loc now st' sent,
        SampleStep defaultOptions true true st loc now st' sent →
        ((sent = true ↔ shouldSendLocation defaultOptions st loc now = true) ∧
         (sent = false → st' = st) ∧
         (sent = true →
            st'.lastSentLocation = some loc ∧ st'.lastSentTime = now))) ∧
    (SampleStep defaultOptions true true initialTrackerState locA 0 stAfterLocA true ∧
     (∀ st' sent, SampleStep defaultOptions true true stAfterLocA locB 2000 st' sent →
        sent = false ∧ st' = stAfterLocA) ∧
     SampleStep defaultOptions true true stAfterLocA locB 8000 stAfterLocB true) := by
  refine ⟨?_, ?_, ?_, ?_, ?_⟩
  · intro st loc now
    rw [shouldSendLocation_iff, jsOr_default_interval, jsOr_default_threshold]
  · intro st loc now st' sent h
    have hi := sampleStep_inversion h
    refine ⟨hi.1, hi.2.1, ?_⟩
    intro hsent
    rw [hi.2.2 hsent]
    exact ⟨rfl, rfl⟩
  · exact SampleStep.send initialTrackerState locA 0 (shouldSend_first rfl locA 0)
      rfl rfl
  · intro st' sent h
    have hi := sampleStep_inversion h
    have hsent : sent = false := by
      cases sent
      · rfl
      · exact absurd (hi.1.mp rfl) (by simp [scenarioD_second_not_sent])
    exact ⟨hsent, hi.2.1 hsent⟩
  · exact SampleStep.send stAfterLocA locB 8000 scenarioD_third_sent rfl rfl

/-- Witness for C4: the first-ever sample fires the throttle. -/
theorem C4_witness :
    shouldSendLocation defaultOptions initialTrackerState locA 0 = true :=
  (C4_reporting_throttle.1 initialTrackerState locA 0).mpr (Or.inl rfl)

/-! ## C8 -/

/-- C8 fails as stated: the first sample after a restart is not transmitted
unconditionally.  Concretely on iOS: start, transmit `locA` at t = 0, stop,
restart — the restart succeeds, but the throttle references survive the
stop/start, so the first sample after the restart (same coordinates, 2 s
later) is below both thresholds and is not transmitted. -/
theorem C8_counterexample :
    startTracking .ios .granted 1 initialTrackerState =
      (st8started, true, [.watchPosition 1]) ∧
    SampleStep defaultOptions true true st8started locA 0 st8sent true ∧
    stopTracking st8sent = (st8stopped, [.clearWatch 1]) ∧
    startTracking .ios .granted 2 st8stopped =
      (st8restarted, true, [.watchPosition 2]) ∧
    st8restarted.lastSentLocation = some locA ∧
    shouldSendLocation defaultOptions st8restarted locA 2000 = false ∧
    SampleStep defaultOptions true true st8restarted locA 2000 st8restarted false := by
  refine ⟨rfl, ?_, rfl, rfl, rfl, restart_first_sample_not_sent, ?_⟩
  · exact SampleStep.send st8started locA 0 (shouldSend_first rfl locA 0) rfl rfl
  · exact SampleStep.skip st8restarted locA 2000 restart_first_sample_not_sent

/-- C8 (amended): the first sample is transmitted unconditionally exactly
when no sample has ever been transmitted (fresh start: `lastSentLocation`
unset); neither `stopTracking` nor `startTracking` resets the throttle
references, so after a restart the first sample is throttled against the last
sample transmitted before the restart. -/
theorem C8_first_sample_fresh_start :
    (∀ opts st loc now, st.lastSentLocation = none →
        shouldSendLocation opts st loc now = true) ∧
    (∀ st, (stopTracking st).1.lastSentLocation = st.lastSentLocation ∧
        (stopTracking st).1.lastSentTime = st.lastSentTime) ∧
    (∀ p res w st,
        (startTracking p res w st).1.lastSentLocation = st.lastSentLocation ∧
        (startTracking p res w st).1.lastSentTime = st.lastSentTime) := by
  refine ⟨fun opts st loc now h => shouldSend_first h loc now, ?_, ?_⟩
  · intro st
    unfold stopTracking
    by_cases h : st.isTracking = true <;> simp [h]
  · intro p res w st
    unfold startTracking
    by_cases hst : st.isTracking = true
    · simp [hst]
    · rw [if_neg hst]
      have hp := requestPermissions_preserves p res st
      rcases hrp : requestPermissions p res st with ⟨st1, ok, effs⟩
      rw [hrp] at hp
      cases ok
      · simpa using hp
      · simpa using hp

/-- Witness for the amended C8: a fresh tracker transmits its first sample. -/
theorem C8_witness :
    shouldSendLocation defaultOptions initialTrackerState locB 500 = true :=
  C8_first_sample_fresh_start.1 defaultOptions initialTrackerState locB 500 rfl
